import Mathlib

/-!
Verification of the cross-genre artist analogy resolver and similarity scorer
(`comparison-engine`, `vector-utils.ts`, `feature-extractor.ts`).

Modelling conventions:
* JavaScript numbers are modelled as exact rationals (`ℚ`); the spec and its
  testable properties state exact values (1/3, 0.5, sums equal to 1.0), i.e.
  they describe the arithmetic over exact reals, which `ℚ` realises.
* JavaScript `Set` values are modelled as `Finset String` (built from lists via
  `List.toFinset`); only size and membership of these sets are ever consumed by
  the code, and both agree with the `Finset` operations.
* Optional / possibly-missing string fields are `Option String`; JavaScript
  truthiness of such a field (`undefined` and `""` are falsy) is `jsTruthy`.
  Optional arrays are `Option (List String)` (an array, even empty, is truthy).
* `toLowerCase`, `trim` and `split(/\s+/)` are modelled as explicit functions
  over the character list of a string.
* Asynchronous port calls (the vector index, the text-generation model) are
  modelled by passing the port's outcome as an explicit argument:
  `Except Unit α` distinguishes a thrown/rejected call (`.error ()`) from a
  returned value (`.ok a`).
-/

/-- JavaScript truthiness of a possibly-absent string field: `undefined` and
the empty string are falsy, every other string is truthy. -/
def jsTruthy : Option String → Bool
  | none => false
  | some s => s ≠ ""

/-- Whitespace as matched by the JavaScript regexp `\s` (the code only ever
meets spaces, tabs and newlines). -/
def isWsChar (c : Char) : Bool := c = ' ' ∨ c = '\t' ∨ c = '\n' ∨ c = '\r'

/-- `s.toLowerCase()`, character by character. -/
def jsToLower (s : String) : String := ⟨s.data.map Char.toLower⟩

/-- `s.trim()`: drop whitespace from both ends. -/
def jsTrim (s : String) : String :=
  ⟨((s.data.dropWhile isWsChar).reverse.dropWhile isWsChar).reverse⟩

/-- `s.toLowerCase().trim()` as applied by the comparison engine to theme,
topic and genre strings. -/
def lowerTrim (s : String) : String := jsTrim (jsToLower s)

/-- The set of normalized members of a string list
(`new Set(xs.map(t => t.toLowerCase().trim()))`); only its cardinality and
membership are consumed, which `List.toFinset` models. -/
def normSet (xs : List String) : Finset String := (xs.map lowerTrim).toFinset

/-- The set of lowercased members of a string list
(`new Set(xs.map(i => i.toLowerCase()))`, no trim), as used for
instrumentation lists. -/
def lowerSet (xs : List String) : Finset String := (xs.map jsToLower).toFinset

/-- Jaccard similarity of two finite string sets: intersection size over union
size (in `ℚ`, division by a zero denominator yields 0). -/
def jaccard (s1 s2 : Finset String) : ℚ :=
  ((s1 ∩ s2).card : ℚ) / ((s1 ∪ s2).card : ℚ)

/-- Maximal non-whitespace runs of a character list, accumulating the current
run in reverse; used to model `split(/\s+/)`. -/
def wordRuns : List Char → List Char → List String
  | [], acc => if acc.isEmpty then [] else [⟨acc.reverse⟩]
  | c :: cs, acc =>
    if isWsChar c then
      if acc.isEmpty then wordRuns cs [] else (⟨acc.reverse⟩ : String) :: wordRuns cs []
    else wordRuns cs (c :: acc)

/-- `s.split(/\s+/)` in JavaScript: the substrings between maximal whitespace
runs; a leading (resp. trailing) whitespace run contributes a leading (resp.
trailing) empty string, and splitting the empty string yields `[""]`. -/
def jsSplitWs (s : String) : List String :=
  match s.data with
  | [] => [""]
  | c :: cs =>
    let pre : List String := if isWsChar c then [""] else []
    let post : List String := if isWsChar ((c :: cs).getLastD c) then [""] else []
    pre ++ wordRuns (c :: cs) [] ++ post

/-- `musicalCharacteristics` of an `ArtistFeatures` record: every field is
optional (`tempo?`, `key?`, `mood?`, `instrumentation?`, `energy?`). -/
structure MusicalCharacteristics where
  tempo : Option String
  key : Option String
  mood : Option String
  instrumentation : Option (List String)
  energy : Option String
deriving DecidableEq

/-- `lyricalStyle` of an `ArtistFeatures` record.  The TypeScript interface
declares `complexity`, `emotionalTone`, `narrativeStyle` as required strings
and `commonTopics` as a required array, but the similarity code
truthiness-checks `complexity`, `emotionalTone` and `commonTopics` (records
built from model JSON can miss inner fields at runtime), so the strings may be
empty and `commonTopics` may be absent. -/
structure LyricalStyle where
  complexity : String
  emotionalTone : String
  narrativeStyle : String
  commonTopics : Option (List String)
deriving DecidableEq

/-- The `ArtistFeatures` record produced by the feature extractor. -/
structure ArtistFeatures where
  themes : List String
  musicalCharacteristics : MusicalCharacteristics
  lyricalStyle : LyricalStyle
deriving DecidableEq

/-- `calculateThemeSimilarity(themes1, themes2)`: 1 when both lists are empty,
0 when exactly one is empty, otherwise intersection size over union size of
the normalized (lowercased, trimmed) theme sets. -/
def calculateThemeSimilarity (themes1 themes2 : List String) : ℚ :=
  if themes1 = [] ∧ themes2 = [] then 1
  else if themes1 = [] ∨ themes2 = [] then 0
  else
    ((normSet themes1 ∩ normSet themes2).card : ℚ) /
      ((normSet themes1 ∪ normSet themes2).card : ℚ)

/-- One step of the `compare` closure in `calculateMusicalSimilarity`: when
both optional values are truthy, add a comparison unit (`total++`) whose match
weight is 1 on case-insensitive equality and 0 otherwise.  State is the pair
(accumulated matches, total). -/
def compareStep (mt : ℚ × ℕ) (val1 val2 : Option String) : ℚ × ℕ :=
  if jsTruthy val1 ∧ jsTruthy val2 then
    (mt.1 + (if jsToLower (val1.getD "") = jsToLower (val2.getD "") then 1 else 0), mt.2 + 1)
  else mt

/-- The instrumentation step of `calculateMusicalSimilarity`: when both
records carry an instrumentation array and the union of the lowercased sets is
non-empty, add one comparison unit whose match weight is the Jaccard
similarity of the two lowercased sets. -/
def instStep (mt : ℚ × ℕ) (inst1 inst2 : Option (List String)) : ℚ × ℕ :=
  match inst1, inst2 with
  | some l1, some l2 =>
    if 0 < (lowerSet l1 ∪ lowerSet l2).card then
      (mt.1 + ((lowerSet l1 ∩ lowerSet l2).card : ℚ) / ((lowerSet l1 ∪ lowerSet l2).card : ℚ),
        mt.2 + 1)
    else mt
  | _, _ => mt

/-- `calculateMusicalSimilarity(music1, music2)`: accumulate matches and total
over tempo, key, mood, energy and the instrumentation unit; return
matches/total, or the neutral default 0.5 when total is 0. -/
def calculateMusicalSimilarity (music1 music2 : MusicalCharacteristics) : ℚ :=
  let mt1 := compareStep (0, 0) music1.tempo music2.tempo
  let mt2 := compareStep mt1 music1.key music2.key
  let mt3 := compareStep mt2 music1.mood music2.mood
  let mt4 := compareStep mt3 music1.energy music2.energy
  let mt5 := instStep mt4 music1.instrumentation music2.instrumentation
  if 0 < mt5.2 then mt5.1 / (mt5.2 : ℚ) else 1/2

/-- `calculateLyricalSimilarity(style1, style2)`: up to three comparison
units — strict equality of truthy complexities, shared-long-word ratio of
truthy emotional tones, and theme-similarity of present `commonTopics`
arrays; return matches/total, or 0.5 when no unit was evaluated. -/
def calculateLyricalSimilarity (style1 style2 : LyricalStyle) : ℚ :=
  let mtc : ℚ × ℕ :=
    if style1.complexity ≠ "" ∧ style2.complexity ≠ "" then
      ((if style1.complexity = style2.complexity then 1 else 0), 1)
    else (0, 0)
  let mtt : ℚ × ℕ :=
    if style1.emotionalTone ≠ "" ∧ style2.emotionalTone ≠ "" then
      let words1 := (jsSplitWs (jsToLower style1.emotionalTone)).toFinset
      let words2 := (jsSplitWs (jsToLower style2.emotionalTone)).toFinset
      let commonWords := words1.filter (fun w => w ∈ words2 ∧ 3 < w.length)
      if 0 < words1.card ∧ 0 < words2.card then
        (mtc.1 + (commonWords.card : ℚ) / (max words1.card words2.card : ℚ), mtc.2 + 1)
      else (mtc.1, mtc.2 + 1)
    else mtc
  let mtp : ℚ × ℕ :=
    match style1.commonTopics, style2.commonTopics with
    | some t1, some t2 => (mtt.1 + calculateThemeSimilarity t1 t2, mtt.2 + 1)
    | _, _ => mtt
  if 0 < mtp.2 then mtp.1 / (mtp.2 : ℚ) else 1/2

/-- The fixed-weight overall similarity computed inside `compareArtists`:
`vectorSimilarity*0.5 + themeSimilarity*0.2 + musicalSimilarity*0.15 +
lyricalSimilarity*0.15`. -/
def overallSimilarity (vectorSimilarity themeSimilarity musicalSimilarity lyricalSimilarity : ℚ) : ℚ :=
  vectorSimilarity * 0.5 + themeSimilarity * 0.2 + musicalSimilarity * 0.15 +
    lyricalSimilarity * 0.15

/-- `findIntersection(arr1, arr2)`: the elements of `arr1` whose normalized
form lies in the intersection of the two normalized sets (so shared entries
are rendered with the source record's original casing). -/
def findIntersection (arr1 arr2 : List String) : List String :=
  arr1.filter (fun s => lowerTrim s ∈ normSet arr1 ∩ normSet arr2)

/-- `findDifferences(arr1, arr2)`: the elements of `arr1` whose normalized
form is absent from the normalized set of `arr2`. -/
def findDifferences (arr1 arr2 : List String) : List String :=
  arr1.filter (fun s => lowerTrim s ∉ normSet arr2)

/-- `findSharedMusicalCharacteristics(music1, music2)`: labelled strings for
the case-insensitively equal truthy tempo/energy/mood fields, plus a joined
instrument list when both instrumentation arrays are present and share
members. -/
def findSharedMusicalCharacteristics (music1 music2 : MusicalCharacteristics) : List String :=
  (if jsTruthy music1.tempo ∧ jsTruthy music2.tempo ∧
      jsToLower (music1.tempo.getD "") = jsToLower (music2.tempo.getD "") then
    ["Tempo: " ++ music1.tempo.getD ""] else []) ++
  (if jsTruthy music1.energy ∧ jsTruthy music2.energy ∧
      jsToLower (music1.energy.getD "") = jsToLower (music2.energy.getD "") then
    ["Energy: " ++ music1.energy.getD ""] else []) ++
  (if jsTruthy music1.mood ∧ jsTruthy music2.mood ∧
      jsToLower (music1.mood.getD "") = jsToLower (music2.mood.getD "") then
    ["Mood: " ++ music1.mood.getD ""] else []) ++
  (match music1.instrumentation, music2.instrumentation with
   | some l1, some l2 =>
     let sharedInstruments := findIntersection l1 l2
     if sharedInstruments ≠ [] then
       ["Instruments: " ++ String.intercalate ", " sharedInstruments]
     else []
   | _, _ => [])

/-- `findDifferentMusicalCharacteristics(music1, music2)`: `"a vs b"` strings
for the case-insensitively unequal truthy tempo and energy fields. -/
def findDifferentMusicalCharacteristics (music1 music2 : MusicalCharacteristics) : List String :=
  (if jsTruthy music1.tempo ∧ jsTruthy music2.tempo ∧
      jsToLower (music1.tempo.getD "") ≠ jsToLower (music2.tempo.getD "") then
    [music1.tempo.getD "" ++ " vs " ++ music2.tempo.getD "" ++ " tempo"] else []) ++
  (if jsTruthy music1.energy ∧ jsTruthy music2.energy ∧
      jsToLower (music1.energy.getD "") ≠ jsToLower (music2.energy.getD "") then
    [music1.energy.getD "" ++ " vs " ++ music2.energy.getD "" ++ " energy"] else [])

/-- `findSharedLyricalCharacteristics(style1, style2)`: a labelled complexity
string on strict equality, plus a joined topic list when the (defaulted-empty)
`commonTopics` arrays intersect. -/
def findSharedLyricalCharacteristics (style1 style2 : LyricalStyle) : List String :=
  (if style1.complexity = style2.complexity then
    [style1.complexity ++ " lyrical complexity"] else []) ++
  (let sharedTopics := findIntersection (style1.commonTopics.getD []) (style2.commonTopics.getD [])
   if sharedTopics ≠ [] then ["Topics: " ++ String.intercalate ", " sharedTopics] else [])

/-- `findDifferentLyricalCharacteristics(style1, style2)`: an `"a vs b
complexity"` string on strict inequality of the complexities. -/
def findDifferentLyricalCharacteristics (style1 style2 : LyricalStyle) : List String :=
  if style1.complexity ≠ style2.complexity then
    [style1.complexity ++ " vs " ++ style2.complexity ++ " complexity"]
  else []

/-- `generateUserFriendlyExplanation`: the text-generation port is abstracted
as `aiOutcome : Except Unit String` — `.error ()` models a rejected `ai.run`
call and `.ok s` a call whose response the shape-probing chain reduced to the
string `s` (an unrecognised shape yields `""`).  The prompt construction is
omitted: it only feeds the abstracted port.  On success the trimmed response
is returned unless it is empty, in which case a fixed generic sentence is
returned; on failure a sentence is synthesized from the shared theme and
musical characteristic lists, or a generic genre-naming sentence when both
are empty. -/
def generateUserFriendlyExplanation (sourceArtist sourceGenre targetArtist targetGenre : String)
    (sharedThemes sharedMusical : List String) (aiOutcome : Except Unit String) : String :=
  match aiOutcome with
  | .ok explanation =>
    if jsTrim explanation ≠ "" then jsTrim explanation
    else
      "These artists share similar musical and lyrical characteristics that make them equivalent across genres."
  | .error _ =>
    let sharedParts : List String :=
      (if 0 < sharedThemes.length then
        ["both explore themes like " ++ String.intercalate ", " (sharedThemes.take 3)]
       else []) ++
      (if 0 < sharedMusical.length then ["share " ++ sharedMusical.headD ""] else [])
    if 0 < sharedParts.length then
      sourceArtist ++ " and " ++ targetArtist ++ " are equivalent because they " ++
        String.intercalate " and " sharedParts ++ "."
    else
      sourceArtist ++ " and " ++ targetArtist ++
        " share similar artistic approaches that make them equivalent across the " ++
        sourceGenre ++ " and " ++ targetGenre ++ " genres."

/-- The `technicalBreakdown` sub-object of a `ComparisonResult`. -/
structure TechnicalBreakdown where
  themeSimilarity : ℚ
  musicalSimilarity : ℚ
  lyricalSimilarity : ℚ
  overallSimilarity : ℚ
deriving DecidableEq

/-- The `sharedCharacteristics` / `differences` sub-objects of a
`ComparisonResult`. -/
structure CharacteristicLists where
  themes : List String
  musical : List String
  lyrical : List String
deriving DecidableEq

/-- The `ComparisonResult` returned by `compareArtists`. -/
structure ComparisonResult where
  userFriendlyExplanation : String
  technicalBreakdown : TechnicalBreakdown
  sharedCharacteristics : CharacteristicLists
  differences : CharacteristicLists
deriving DecidableEq

/-- `compareArtists`: compute the three sub-scores, the fixed-weight overall
score, the shared/different characteristic lists, and the explanation (via
the abstracted text-generation port outcome `aiOutcome`). -/
def compareArtists (sourceArtist sourceGenre : String) (sourceFeatures : ArtistFeatures)
    (targetArtist targetGenre : String) (targetFeatures : ArtistFeatures)
    (vectorSimilarity : ℚ) (aiOutcome : Except Unit String) : ComparisonResult :=
  let themeSimilarity := calculateThemeSimilarity sourceFeatures.themes targetFeatures.themes
  let musicalSimilarity := calculateMusicalSimilarity sourceFeatures.musicalCharacteristics
    targetFeatures.musicalCharacteristics
  let lyricalSimilarity := calculateLyricalSimilarity sourceFeatures.lyricalStyle
    targetFeatures.lyricalStyle
  let sharedThemes := findIntersection sourceFeatures.themes targetFeatures.themes
  let sharedMusical := findSharedMusicalCharacteristics sourceFeatures.musicalCharacteristics
    targetFeatures.musicalCharacteristics
  let sharedLyrical := findSharedLyricalCharacteristics sourceFeatures.lyricalStyle
    targetFeatures.lyricalStyle
  { userFriendlyExplanation := generateUserFriendlyExplanation sourceArtist sourceGenre
      targetArtist targetGenre sharedThemes sharedMusical aiOutcome
    technicalBreakdown :=
      { themeSimilarity := themeSimilarity
        musicalSimilarity := musicalSimilarity
        lyricalSimilarity := lyricalSimilarity
        overallSimilarity := overallSimilarity vectorSimilarity themeSimilarity
          musicalSimilarity lyricalSimilarity }
    sharedCharacteristics :=
      { themes := sharedThemes
        musical := sharedMusical
        lyrical := sharedLyrical }
    differences :=
      { themes := findDifferences sourceFeatures.themes targetFeatures.themes
        musical := findDifferentMusicalCharacteristics sourceFeatures.musicalCharacteristics
          targetFeatures.musicalCharacteristics
        lyrical := findDifferentLyricalCharacteristics sourceFeatures.lyricalStyle
          targetFeatures.lyricalStyle } }

/-- The possibly-partial feature record that the response-processing chain of
`extractArtistFeatures` (code-fence stripping, `JSON.parse`, comma/key
repair, regex fallback `extractFeaturesFromText`) yields on the non-throwing
path.  Each top-level field is `none` when the parsed value lacks it (or, for
`themes`, carries a non-array); the parsing chain itself never throws, since
every parse failure falls back to the total regex extraction. -/
structure RawFeatures where
  themes : Option (List String)
  musicalCharacteristics : Option MusicalCharacteristics
  lyricalStyle : Option LyricalStyle
deriving DecidableEq

/-- The default `lyricalStyle` installed by the feature extractor. -/
def defaultLyricalStyle : LyricalStyle :=
  { complexity := "moderate"
    emotionalTone := "neutral"
    narrativeStyle := "descriptive"
    commonTopics := some [] }

/-- The empty `musicalCharacteristics` object (`{}`). -/
def emptyMusicalCharacteristics : MusicalCharacteristics :=
  { tempo := none, key := none, mood := none, instrumentation := none, energy := none }

/-- The record returned by the catch-all branch of `extractArtistFeatures`. -/
def defaultArtistFeatures : ArtistFeatures :=
  { themes := []
    musicalCharacteristics := emptyMusicalCharacteristics
    lyricalStyle := defaultLyricalStyle }

/-- `extractArtistFeatures`: the text-generation call and the parsing chain
are abstracted as `aiOutcome : Except Unit RawFeatures` — `.error ()` models a
rejected `ai.run` call (the outer catch) and `.ok raw` the possibly-partial
record the parsing chain produced.  On failure the fully-defaulted record is
returned; on success each missing top-level field is filled in
(`themes := []`, `musicalCharacteristics := {}`, `lyricalStyle :=` the default
style), so the caller always receives a well-formed record. -/
def extractArtistFeatures (aiOutcome : Except Unit RawFeatures) : ArtistFeatures :=
  match aiOutcome with
  | .error _ => defaultArtistFeatures
  | .ok features =>
    { themes := features.themes.getD []
      musicalCharacteristics := features.musicalCharacteristics.getD emptyMusicalCharacteristics
      lyricalStyle := features.lyricalStyle.getD defaultLyricalStyle }

/-- One nearest-neighbour match as returned by `vectorize.query` with
`returnMetadata: true`: the vector id (`""` models a missing/falsy id), the
retrieval score (`none` models a missing score; the code applies `|| 0`), and
the `genre` / `artist` / `type` metadata fields. -/
structure VMatch where
  id : String
  score : Option ℚ
  mtype : Option String
  genre : Option String
  artist : Option String
deriving DecidableEq

/-- An entry of the `ArtistResult[]` list returned by
`findEquivalentArtists`. -/
structure ArtistResult where
  artist : String
  genre : String
  score : ℚ
deriving DecidableEq

/-- `match.score || 0`. -/
def jsScore (m : VMatch) : ℚ := m.score.getD 0

/-- The stateful `filter` over `allMatches` with the `seen` id set: keep a
match iff its id is truthy and not seen yet, adding kept ids to `seen`. -/
def dedupByIdFrom (seen : List String) : List VMatch → List VMatch
  | [] => []
  | m :: rest =>
    if m.id ≠ "" ∧ m.id ∉ seen then m :: dedupByIdFrom (m.id :: seen) rest
    else dedupByIdFrom seen rest

/-- Deduplication of the merged match pool by id, starting from an empty
`seen` set (vector-utils.ts lines 119–126). -/
def dedupById (ms : List VMatch) : List VMatch := dedupByIdFrom [] ms

/-- Insertion of a match into a list sorted descending by `score || 0`: the
new element is placed before the first element of strictly smaller score,
i.e. after every element of equal or greater score. -/
def insertDescByScore (m : VMatch) : List VMatch → List VMatch
  | [] => [m]
  | x :: xs => if jsScore x < jsScore m then m :: x :: xs else x :: insertDescByScore m xs

/-- Sort of the match pool, descending by `score || 0`: elements are inserted
left to right, each after all previously placed elements of equal score, so
the result is sorted (`sortDescByScore_sorted`) and stable
(`sortDescByScore_stable`: each equal-score class keeps its original order) —
extensionally the ES2019-stable
`uniqueMatches.sort((a, b) => (b.match.score || 0) - (a.match.score || 0))`. -/
def sortDescByScore (ms : List VMatch) : List VMatch :=
  ms.foldl (fun acc m => insertDescByScore m acc) []

/-- The filter condition of the results loop: metadata `type` is exactly
`"artist"`, the lowercased-trimmed `genre` equals the lowercased-trimmed
target genre, and the `artist` metadata field is truthy. -/
def matchesTarget (targetGenre : String) (m : VMatch) : Bool :=
  m.mtype = some "artist" ∧ m.genre.map lowerTrim = some (lowerTrim targetGenre) ∧
    jsTruthy m.artist

/-- The `ArtistResult` pushed for a surviving match: the artist metadata, the
genre metadata (`|| targetGenre`), and the retrieval score (`|| 0`). -/
def toArtistResult (targetGenre : String) (m : VMatch) : ArtistResult :=
  { artist := m.artist.getD ""
    genre := if jsTruthy m.genre then m.genre.getD "" else targetGenre
    score := jsScore m }

/-- The results loop of `findEquivalentArtists` (lines 134–164): walk the
sorted pool, push every match satisfying `matchesTarget`, and break as soon as
`results.length >= topK` — the check happens after each push, so even
`topK = 0` lets one survivor through. -/
def resultsLoop (targetGenre : String) (topK : Nat) (acc : List ArtistResult) :
    List VMatch → List ArtistResult
  | [] => acc.reverse
  | m :: rest =>
    if matchesTarget targetGenre m then
      let acc2 := toArtistResult targetGenre m :: acc
      if topK ≤ acc2.length then acc2.reverse else resultsLoop targetGenre topK acc2 rest
    else resultsLoop targetGenre topK acc rest

/-- The errors thrown by `findEquivalentArtists` / `vectorArithmetic`, with
the identifiers named in the corresponding `Error` messages as payloads.
`referenceErrorTargetGenreLower` is not a deliberate `throw`: line 173
interpolates `targetGenreLower`, a `const` declared at line 147 *inside* the
for-of loop and hence out of scope in the post-loop `if (results.length ===
0)` block, so under a non-type-checking bundler every zero-survivor call
raises a `ReferenceError` there (under `tsc` the file does not compile at
all). -/
inductive FindError where
  | artistNotFound (artist genre : String)
  | sourceAvgNotFound (genre : String)
  | targetAvgNotFound (genre : String)
  | dimensionMismatch
  | referenceErrorTargetGenreLower
deriving DecidableEq

/-- The post-query pipeline of `findEquivalentArtists` (lines 119–176): merge
(already flattened), deduplicate by id, sort descending by score, filter and
truncate via the results loop; then, when zero results survived, the logging
block at lines 168–174 evaluates the template string referencing the
out-of-scope `targetGenreLower` and throws a `ReferenceError` before
`return results` is reached. -/
def processMatches (allMatches : List VMatch) (targetGenre : String) (topK : Nat) :
    Except FindError (List ArtistResult) :=
  let results := resultsLoop targetGenre topK [] (sortDescByScore (dedupById allMatches))
  if results.length = 0 then .error .referenceErrorTargetGenreLower else .ok results

/-- `vectorArithmetic(artistVector, avgSourceGenreVector, avgTargetGenreVector)`:
throw on any dimensionality disagreement, otherwise the component-wise
`artist − avgSource + avgTarget`. -/
def vectorArithmetic (artistVector avgSourceGenreVector avgTargetGenreVector : List ℚ) :
    Except FindError (List ℚ) :=
  if avgSourceGenreVector.length ≠ artistVector.length ∨
      avgTargetGenreVector.length ≠ artistVector.length then
    .error .dimensionMismatch
  else
    .ok (List.zipWith3 (fun a s t => a - s + t) artistVector avgSourceGenreVector
      avgTargetGenreVector)

/-- `findEquivalentArtists`: the vector index port is abstracted by passing
the outcomes of the three `getByIds` fetches (`none` models an absent vector,
as `getArtistVector` / `getAverageGenreVector` return `null` both on a miss
and on a rejected fetch) and the flattened matches of the three
nearest-neighbour queries (their query vectors — the analogy vector and its
two random perturbations — only feed the abstracted port).  Missing source
artist vector, then missing source centroid, then missing target centroid
each throw; then the analogy vector is computed (throwing on dimension
mismatch); then the match pool is deduplicated, sorted, filtered to the
target genre and truncated to `topK` — with the zero-survivor
`ReferenceError` of `processMatches` propagating to the caller. -/
def findEquivalentArtists (sourceArtist sourceGenre targetGenre : String)
    (artistVector avgSourceVector avgTargetVector : Option (List ℚ))
    (queryMatches : List VMatch) (topK : Nat) : Except FindError (List ArtistResult) :=
  match artistVector with
  | none => .error (.artistNotFound sourceArtist sourceGenre)
  | some v =>
    match avgSourceVector with
    | none => .error (.sourceAvgNotFound sourceGenre)
    | some s =>
      match avgTargetVector with
      | none => .error (.targetAvgNotFound targetGenre)
      | some t =>
        match vectorArithmetic v s t with
        | .error e => .error e
        | .ok _ => processMatches queryMatches targetGenre topK

/-- One accumulation step over an optional comparison unit: an absent unit
leaves the (matches, total) state unchanged, a present unit adds its match
weight and increments the total. -/
def stepUnit (mt : ℚ × ℕ) : Option ℚ → ℚ × ℕ
  | some w => (mt.1 + w, mt.2 + 1)
  | none => mt

/-- The binary attribute comparison unit as claim C3 words it: present (in the
JavaScript-truthy sense) in both records, with match weight 1 on
case-insensitive equality and 0 otherwise; absent otherwise. -/
def binaryUnit (val1 val2 : Option String) : Option ℚ :=
  if jsTruthy val1 ∧ jsTruthy val2 then
    some (if jsToLower (val1.getD "") = jsToLower (val2.getD "") then 1 else 0)
  else none

/-- The instrumentation comparison unit exactly as claim C3 words it: one
additional unit whenever both records expose `instrumentation`, with match
weight the Jaccard similarity of the two (lowercased) instrumentation sets. -/
def instUnitClaimed (inst1 inst2 : Option (List String)) : Option ℚ :=
  match inst1, inst2 with
  | some l1, some l2 => some (jaccard (lowerSet l1) (lowerSet l2))
  | _, _ => none

/-- The instrumentation comparison unit as the code implements it: the unit is
added only when the union of the two lowercased instrumentation sets is
non-empty. -/
def instUnitAmended (inst1 inst2 : Option (List String)) : Option ℚ :=
  match inst1, inst2 with
  | some l1, some l2 =>
    if 0 < (lowerSet l1 ∪ lowerSet l2).card then some (jaccard (lowerSet l1) (lowerSet l2))
    else none
  | _, _ => none

/-- Score of a list of optional comparison units: matches (the sum of the
present units' weights) over total (their count), with the neutral default
0.5 when no unit is present. -/
def scoreOfUnits (units : List (Option ℚ)) : ℚ :=
  let ws := units.filterMap id
  if ws.length = 0 then 1/2 else ws.sum / (ws.length : ℚ)

/-- The attribute (musical) score as claim C3 states it, with the
instrumentation unit added whenever both records expose instrumentation. -/
def musicalScoreClaimed (music1 music2 : MusicalCharacteristics) : ℚ :=
  scoreOfUnits
    [binaryUnit music1.tempo music2.tempo,
     binaryUnit music1.key music2.key,
     binaryUnit music1.mood music2.mood,
     binaryUnit music1.energy music2.energy,
     instUnitClaimed music1.instrumentation music2.instrumentation]

/-- The attribute (musical) score as amended: the instrumentation unit is
added only when both records expose instrumentation and the union of the two
lowercased instrumentation sets is non-empty. -/
def musicalScoreAmended (music1 music2 : MusicalCharacteristics) : ℚ :=
  scoreOfUnits
    [binaryUnit music1.tempo music2.tempo,
     binaryUnit music1.key music2.key,
     binaryUnit music1.mood music2.mood,
     binaryUnit music1.energy music2.energy,
     instUnitAmended music1.instrumentation music2.instrumentation]

lemma string_data_append (a b : String) : (a ++ b).data = a.data ++ b.data := by
  cases a; cases b; rfl

lemma string_eq_empty_iff (s : String) : s = "" ↔ s.data = [] := by
  cases s with
  | mk l =>
    rw [show ("" : String) = ⟨[]⟩ from rfl]
    exact ⟨fun h => congrArg String.data h, fun h => congrArg String.mk h⟩

lemma append_eq_empty_iff (a b : String) : a ++ b = "" ↔ a = "" ∧ b = "" := by
  rw [string_eq_empty_iff, string_eq_empty_iff, string_eq_empty_iff, string_data_append,
    List.append_eq_nil]

lemma compareStep_eq_stepUnit (mt : ℚ × ℕ) (v1 v2 : Option String) :
    compareStep mt v1 v2 = stepUnit mt (binaryUnit v1 v2) := by
  simp only [compareStep, binaryUnit]
  split <;> simp [stepUnit]

lemma instStep_eq_stepUnit (mt : ℚ × ℕ) (i1 i2 : Option (List String)) :
    instStep mt i1 i2 = stepUnit mt (instUnitAmended i1 i2) := by
  cases i1 <;> cases i2 <;> simp only [instStep, instUnitAmended, stepUnit, jaccard]
  split <;> simp [stepUnit]

lemma foldl_stepUnit (us : List (Option ℚ)) : ∀ (q : ℚ) (n : ℕ),
    us.foldl stepUnit (q, n) = (q + (us.filterMap id).sum, n + (us.filterMap id).length) := by
  induction us with
  | nil => intro q n; simp
  | cons u rest ih =>
    intro q n
    cases u with
    | none => simp [stepUnit, ih]
    | some w =>
      have hfm : List.filterMap id (some w :: rest) = w :: List.filterMap id rest := by
        simp [List.filterMap_cons]
      simp only [List.foldl_cons, stepUnit, ih, hfm, List.sum_cons, List.length_cons,
        Prod.mk.injEq]
      exact ⟨by ring, by omega⟩

lemma calculateMusicalSimilarity_eq_amended (m1 m2 : MusicalCharacteristics) :
    calculateMusicalSimilarity m1 m2 = musicalScoreAmended m1 m2 := by
  simp only [calculateMusicalSimilarity, compareStep_eq_stepUnit, instStep_eq_stepUnit]
  have h : stepUnit (stepUnit (stepUnit (stepUnit (stepUnit ((0 : ℚ), (0 : ℕ))
      (binaryUnit m1.tempo m2.tempo)) (binaryUnit m1.key m2.key))
      (binaryUnit m1.mood m2.mood)) (binaryUnit m1.energy m2.energy))
      (instUnitAmended m1.instrumentation m2.instrumentation) =
      List.foldl stepUnit ((0 : ℚ), (0 : ℕ))
        [binaryUnit m1.tempo m2.tempo, binaryUnit m1.key m2.key,
         binaryUnit m1.mood m2.mood, binaryUnit m1.energy m2.energy,
         instUnitAmended m1.instrumentation m2.instrumentation] := rfl
  rw [h, foldl_stepUnit]
  simp only [musicalScoreAmended, scoreOfUnits, zero_add]
  rcases Nat.eq_zero_or_pos ([binaryUnit m1.tempo m2.tempo, binaryUnit m1.key m2.key,
      binaryUnit m1.mood m2.mood, binaryUnit m1.energy m2.energy,
      instUnitAmended m1.instrumentation m2.instrumentation].filterMap id).length with h0 | hpos
  · simp [h0]
  · simp [hpos, Nat.pos_iff_ne_zero.mp hpos]

lemma find?_cons_eq_ite (p : VMatch → Bool) (a : VMatch) (l : List VMatch) :
    (a :: l).find? p = if p a then some a else l.find? p := by
  by_cases h : p a <;> simp [List.find?, h]

lemma dedupByIdFrom_find? (i : String) (hi : i ≠ "") :
    ∀ (ms : List VMatch) (seen : List String), i ∉ seen →
      (dedupByIdFrom seen ms).find? (fun m => m.id == i) = ms.find? (fun m => m.id == i) := by
  intro ms
  induction ms with
  | nil => intro seen _; rfl
  | cons m rest ih =>
    intro seen hseen
    by_cases hkeep : m.id ≠ "" ∧ m.id ∉ seen
    · rw [dedupByIdFrom, if_pos hkeep]
      by_cases heq : m.id = i
      · simp [find?_cons_eq_ite, heq]
      · rw [find?_cons_eq_ite, find?_cons_eq_ite, if_neg (by simp [heq]),
          if_neg (by simp [heq])]
        refine ih (m.id :: seen) ?_
        simp only [List.mem_cons, not_or]
        exact ⟨fun hc => heq hc.symm, hseen⟩
    · rw [dedupByIdFrom, if_neg hkeep]
      have heq : m.id ≠ i := by
        rcases not_and_or.mp hkeep with h | h
        · intro hc; exact hi (hc ▸ (not_not.mp h))
        · intro hc; exact hseen (hc ▸ (not_not.mp h))
      rw [show List.find? (fun m => m.id == i) (m :: rest) =
          if (fun m : VMatch => m.id == i) m then some m else List.find? (fun m => m.id == i) rest
        from find?_cons_eq_ite _ m rest, if_neg (by simp [heq])]
      exact ih seen hseen

lemma dedupByIdFrom_nodup :
    ∀ (ms : List VMatch) (seen : List String),
      ((dedupByIdFrom seen ms).map (fun m => m.id)).Nodup ∧
        ∀ i ∈ (dedupByIdFrom seen ms).map (fun m => m.id), i ∉ seen := by
  intro ms
  induction ms with
  | nil => intro seen; simp [dedupByIdFrom]
  | cons m rest ih =>
    intro seen
    by_cases hkeep : m.id ≠ "" ∧ m.id ∉ seen
    · rw [dedupByIdFrom, if_pos hkeep]
      obtain ⟨hnd, hout⟩ := ih (m.id :: seen)
      refine ⟨?_, ?_⟩
      · simp only [List.map_cons, List.nodup_cons]
        exact ⟨fun hmem => (hout m.id hmem) (by simp), hnd⟩
      · intro i hmem
        simp only [List.map_cons, List.mem_cons] at hmem
        rcases hmem with h | h
        · exact h ▸ hkeep.2
        · exact fun hc => (hout i h) (by simp [hc])
    · rw [dedupByIdFrom, if_neg hkeep]
      exact ih seen

lemma resultsLoop_eq (g : String) (k : ℕ) :
    ∀ (l : List VMatch) (acc : List ArtistResult),
      resultsLoop g k acc l =
        acc.reverse ++
          (((l.filter (matchesTarget g)).map (toArtistResult g)).take (max (k - acc.length) 1)) := by
  intro l
  induction l with
  | nil => intro acc; simp [resultsLoop]
  | cons m rest ih =>
    intro acc
    by_cases hm : matchesTarget g m
    · rw [resultsLoop, if_pos hm, List.filter_cons_of_pos hm]
      by_cases hk : k ≤ acc.length + 1
      · rw [if_pos (by simpa using hk)]
        have hmax : max (k - acc.length) 1 = 1 := by omega
        simp [hmax]
      · rw [if_neg (by simpa using hk), ih]
        have h1 : max (k - (toArtistResult g m :: acc).length) 1 = k - acc.length - 1 := by
          simp only [List.length_cons]; omega
        have h2 : max (k - acc.length) 1 = k - acc.length := by omega
        simp only [h1, h2, List.map_cons, List.reverse_cons, List.append_assoc,
          List.singleton_append, ← List.take_succ_cons]
        rw [show k - acc.length - 1 + 1 = k - acc.length by omega]
    · rw [resultsLoop, if_neg hm, List.filter_cons_of_neg hm, ih]

lemma mem_insertDescByScore (m : VMatch) (l : List VMatch) (b : VMatch)
    (hb : b ∈ insertDescByScore m l) : b = m ∨ b ∈ l := by
  induction l with
  | nil => simpa [insertDescByScore] using hb
  | cons x xs ih =>
    rw [insertDescByScore] at hb
    by_cases hlt : jsScore x < jsScore m
    · rw [if_pos hlt] at hb
      simpa using hb
    · rw [if_neg hlt] at hb
      rcases List.mem_cons.mp hb with h | h
      · exact Or.inr (by simp [h])
      · rcases ih h with h | h
        · exact Or.inl h
        · exact Or.inr (List.mem_cons_of_mem _ h)

lemma sorted_insertDescByScore (m : VMatch) (l : List VMatch)
    (hl : l.Sorted (fun a b => jsScore b ≤ jsScore a)) :
    (insertDescByScore m l).Sorted (fun a b => jsScore b ≤ jsScore a) := by
  induction l with
  | nil => simp [insertDescByScore]
  | cons x xs ih =>
    rw [List.sorted_cons] at hl
    obtain ⟨hx, hxs⟩ := hl
    rw [insertDescByScore]
    by_cases hlt : jsScore x < jsScore m
    · rw [if_pos hlt, List.sorted_cons]
      refine ⟨?_, List.sorted_cons.mpr ⟨hx, hxs⟩⟩
      intro b hb
      rcases List.mem_cons.mp hb with rfl | hb
      · exact le_of_lt hlt
      · exact le_trans (hx b hb) (le_of_lt hlt)
    · rw [if_neg hlt, List.sorted_cons]
      refine ⟨?_, ih hxs⟩
      intro b hb
      rcases mem_insertDescByScore m xs b hb with rfl | hb
      · exact le_of_not_lt hlt
      · exact hx b hb

lemma filter_insertDescByScore (m : VMatch) (l : List VMatch) (q : ℚ)
    (hl : l.Sorted (fun a b => jsScore b ≤ jsScore a)) :
    (insertDescByScore m l).filter (fun x => jsScore x == q) =
      l.filter (fun x => jsScore x == q) ++ (if jsScore m = q then [m] else []) := by
  induction l with
  | nil =>
    by_cases hp : jsScore m = q <;> simp [insertDescByScore, List.filter_cons, hp]
  | cons x xs ih =>
    rw [List.sorted_cons] at hl
    obtain ⟨hx, hxs⟩ := hl
    rw [insertDescByScore]
    by_cases hlt : jsScore x < jsScore m
    · rw [if_pos hlt]
      by_cases hpm : jsScore m = q
      · have hall : (x :: xs).filter (fun y => jsScore y == q) = [] := by
          rw [List.filter_eq_nil_iff]
          intro b hb
          simp only [beq_iff_eq]
          rcases List.mem_cons.mp hb with rfl | hb
          · exact ne_of_lt (hpm ▸ hlt)
          · exact ne_of_lt (lt_of_le_of_lt (hx b hb) (hpm ▸ hlt))
        rw [List.filter_cons_of_pos (by simp [hpm]), hall, if_pos hpm]
        rfl
      · rw [List.filter_cons_of_neg (by simp [hpm]), if_neg hpm, List.append_nil]
    · rw [if_neg hlt]
      by_cases hpx : jsScore x = q
      · rw [List.filter_cons_of_pos (by simp [hpx]), List.filter_cons_of_pos (by simp [hpx]),
          ih hxs, List.cons_append]
      · rw [List.filter_cons_of_neg (by simp [hpx]), List.filter_cons_of_neg (by simp [hpx]),
          ih hxs]

lemma foldl_insertDescByScore_sorted (ms : List VMatch) :
    ∀ acc : List VMatch, acc.Sorted (fun a b => jsScore b ≤ jsScore a) →
      (ms.foldl (fun acc m => insertDescByScore m acc) acc).Sorted
        (fun a b => jsScore b ≤ jsScore a) := by
  induction ms with
  | nil => intro acc h; simpa using h
  | cons m rest ih =>
    intro acc h
    simp only [List.foldl_cons]
    exact ih _ (sorted_insertDescByScore m acc h)

/-- The match-pool sort is sorted descending by `score || 0`. -/
lemma sortDescByScore_sorted (ms : List VMatch) :
    (sortDescByScore ms).Sorted (fun a b => jsScore b ≤ jsScore a) :=
  foldl_insertDescByScore_sorted ms [] (by simp)

lemma foldl_insertDescByScore_filter (q : ℚ) (ms : List VMatch) :
    ∀ acc : List VMatch, acc.Sorted (fun a b => jsScore b ≤ jsScore a) →
      (ms.foldl (fun acc m => insertDescByScore m acc) acc).filter (fun x => jsScore x == q) =
        acc.filter (fun x => jsScore x == q) ++ ms.filter (fun x => jsScore x == q) := by
  induction ms with
  | nil => intro acc _; simp
  | cons m rest ih =>
    intro acc h
    simp only [List.foldl_cons]
    rw [ih _ (sorted_insertDescByScore m acc h), filter_insertDescByScore m acc q h]
    by_cases hpm : jsScore m = q
    · rw [List.filter_cons_of_pos (by simp [hpm]), if_pos hpm, List.append_assoc,
        List.singleton_append]
    · rw [List.filter_cons_of_neg (by simp [hpm]), if_neg hpm, List.append_nil]

/-- Stability of the match-pool sort: within each equal-score class the
original order of the pool is preserved, as for the stable JavaScript
`Array.prototype.sort`. -/
lemma sortDescByScore_stable (ms : List VMatch) (q : ℚ) :
    (sortDescByScore ms).filter (fun x => jsScore x == q) =
      ms.filter (fun x => jsScore x == q) := by
  have h := foldl_insertDescByScore_filter q ms [] (by simp)
  simpa [sortDescByScore] using h

lemma calculateThemeSimilarity_eq_jaccard (t1 t2 : List String) (h1 : t1 ≠ []) (h2 : t2 ≠ []) :
    calculateThemeSimilarity t1 t2 = jaccard (normSet t1) (normSet t2) := by
  rw [calculateThemeSimilarity, if_neg (by tauto), if_neg (by tauto)]
  rfl

/-- Claim C4: for every pair of theme lists the theme score is the Jaccard
similarity of the two normalized (lowercased, trimmed) theme sets, with both
lists empty scoring exactly 1, exactly one list empty scoring exactly 0, and
the concrete pair (["a","b"], ["b","c"]) scoring 1/3. -/
theorem themeScore_is_jaccard :
    (∀ t1 t2 : List String, t1 ≠ [] → t2 ≠ [] →
      calculateThemeSimilarity t1 t2 = jaccard (normSet t1) (normSet t2)) ∧
    calculateThemeSimilarity [] [] = 1 ∧
    (∀ t : List String, t ≠ [] →
      calculateThemeSimilarity [] t = 0 ∧ calculateThemeSimilarity t [] = 0) ∧
    calculateThemeSimilarity ["a", "b"] ["b", "c"] = 1/3 := by
  refine ⟨calculateThemeSimilarity_eq_jaccard, by simp [calculateThemeSimilarity], ?_, ?_⟩
  · intro t ht
    constructor
    · rw [calculateThemeSimilarity, if_neg (by tauto), if_pos (Or.inl rfl)]
    · rw [calculateThemeSimilarity, if_neg (by tauto), if_pos (Or.inr rfl)]
  · rw [calculateThemeSimilarity_eq_jaccard _ _ (by decide) (by decide), jaccard,
      show (normSet ["a", "b"] ∩ normSet ["b", "c"]).card = 1 from by decide,
      show (normSet ["a", "b"] ∪ normSet ["b", "c"]).card = 3 from by decide]
    norm_num

theorem themeScore_is_jaccard_witness :
    calculateThemeSimilarity ["a"] ["b"] = jaccard (normSet ["a"]) (normSet ["b"]) ∧
    calculateThemeSimilarity [] ["x"] = 0 :=
  ⟨themeScore_is_jaccard.1 ["a"] ["b"] (by decide) (by decide),
   (themeScore_is_jaccard.2.2.1 ["x"] (by decide)).1⟩

/-- Claim C10: for non-empty theme lists the theme score depends only on the
two normalized (lowercased, trimmed) member sets — hence it is invariant
under reordering, duplication, case changes and surrounding whitespace — and
it is symmetric in its two arguments. -/
theorem themeScore_set_invariant_symmetric (t1 t2 u1 u2 : List String)
    (h1 : t1 ≠ []) (h2 : t2 ≠ []) (h3 : u1 ≠ []) (h4 : u2 ≠ [])
    (e1 : normSet t1 = normSet u1) (e2 : normSet t2 = normSet u2) :
    calculateThemeSimilarity t1 t2 = calculateThemeSimilarity u1 u2 ∧
    calculateThemeSimilarity t1 t2 = calculateThemeSimilarity t2 t1 := by
  rw [calculateThemeSimilarity_eq_jaccard t1 t2 h1 h2,
    calculateThemeSimilarity_eq_jaccard u1 u2 h3 h4,
    calculateThemeSimilarity_eq_jaccard t2 t1 h2 h1, e1, e2]
  exact ⟨rfl, by rw [jaccard, jaccard, Finset.inter_comm, Finset.union_comm]⟩

theorem themeScore_set_invariant_symmetric_witness :
    calculateThemeSimilarity ["Love ", "loss"] ["LOSS"] =
      calculateThemeSimilarity ["loss", "love", "love"] ["loss"] ∧
    calculateThemeSimilarity ["Love ", "loss"] ["LOSS"] =
      calculateThemeSimilarity ["LOSS"] ["Love ", "loss"] :=
  themeScore_set_invariant_symmetric ["Love ", "loss"] ["LOSS"] ["loss", "love", "love"] ["loss"]
    (by decide) (by decide) (by decide) (by decide) (by decide) (by decide)

/-- Claim C5: the overall score is the fixed weighting
`0.5·embedding + 0.2·theme + 0.15·attribute + 0.15·style` (stated both for
the weighting function and for the score produced by `compareArtists`), the
weights sum to exactly 1, and all-ones inputs yield exactly 1. -/
theorem overallScore_weights :
    (∀ (sa sg ta tg : String) (sf tf : ArtistFeatures) (vs : ℚ) (o : Except Unit String),
      (compareArtists sa sg sf ta tg tf vs o).technicalBreakdown.overallSimilarity =
        0.5 * vs + 0.2 * calculateThemeSimilarity sf.themes tf.themes +
          0.15 * calculateMusicalSimilarity sf.musicalCharacteristics tf.musicalCharacteristics +
          0.15 * calculateLyricalSimilarity sf.lyricalStyle tf.lyricalStyle) ∧
    ((0.5 : ℚ) + 0.2 + 0.15 + 0.15 = 1) ∧
    (∀ e t a s : ℚ, overallSimilarity e t a s = 0.5 * e + 0.2 * t + 0.15 * a + 0.15 * s) ∧
    overallSimilarity 1 1 1 1 = 1 := by
  refine ⟨?_, by norm_num, ?_, by norm_num [overallSimilarity]⟩
  · intro sa sg ta tg sf tf vs o
    simp only [compareArtists, overallSimilarity]
    ring
  · intro e t a s
    rw [overallSimilarity]
    ring

/-- Claim C9: the feature extractor never propagates an error: a rejected
text-generation call produces exactly the defaulted record (empty themes,
empty attributes, style = moderate/neutral/descriptive/no topics), and every
non-throwing parse outcome is normalized into a record with all top-level
fields present. -/
theorem extractFeatures_never_fails :
    extractArtistFeatures (.error ()) =
      { themes := []
        musicalCharacteristics :=
          { tempo := none, key := none, mood := none, instrumentation := none, energy := none }
        lyricalStyle :=
          { complexity := "moderate", emotionalTone := "neutral",
            narrativeStyle := "descriptive", commonTopics := some [] } } ∧
    (∀ raw : RawFeatures,
      extractArtistFeatures (.ok raw) =
        { themes := raw.themes.getD []
          musicalCharacteristics := raw.musicalCharacteristics.getD emptyMusicalCharacteristics
          lyricalStyle := raw.lyricalStyle.getD defaultLyricalStyle }) :=
  ⟨rfl, fun _ => rfl⟩

/-- Counterexample to claim C3 as stated: when both records expose an *empty*
instrumentation array (and nothing else), the code adds no comparison unit
(total stays 0, score 0.5), while the claimed rule adds one unit, making the
score matches/total = 0. -/
theorem attributeScore_claim_ctrex :
    calculateMusicalSimilarity ⟨none, none, none, some [], none⟩
        ⟨none, none, none, some [], none⟩ = 1/2 ∧
    musicalScoreClaimed ⟨none, none, none, some [], none⟩
        ⟨none, none, none, some [], none⟩ = 0 ∧
    calculateMusicalSimilarity ⟨none, none, none, some [], none⟩
        ⟨none, none, none, some [], none⟩ ≠
      musicalScoreClaimed ⟨none, none, none, some [], none⟩
        ⟨none, none, none, some [], none⟩ := by
  have h1 : calculateMusicalSimilarity ⟨none, none, none, some [], none⟩
      ⟨none, none, none, some [], none⟩ = 1/2 := by
    norm_num [calculateMusicalSimilarity, compareStep, instStep, jsTruthy, lowerSet]
  have h2 : musicalScoreClaimed ⟨none, none, none, some [], none⟩
      ⟨none, none, none, some [], none⟩ = 0 := by
    norm_num [musicalScoreClaimed, scoreOfUnits, binaryUnit, instUnitClaimed, jaccard,
      jsTruthy, lowerSet]
    norm_num [List.filterMap_cons]
    exact Option.some_ne_none 0
  exact ⟨h1, h2, by rw [h1, h2]; norm_num⟩

/-- Claim C3 (amended): for every pair of records the attribute score is
matches/total over the binary case-insensitive units for tempo, key, mood,
energy present (truthy) in both records, plus one fractional Jaccard unit
when both records expose instrumentation *and* the union of the two
lowercased instrumentation sets is non-empty; score is the neutral 0.5 when
total is 0. -/
theorem attributeScore_matches_over_total :
    (∀ m1 m2 : MusicalCharacteristics,
      calculateMusicalSimilarity m1 m2 = musicalScoreAmended m1 m2) ∧
    calculateMusicalSimilarity emptyMusicalCharacteristics emptyMusicalCharacteristics = 1/2 :=
  ⟨calculateMusicalSimilarity_eq_amended, rfl⟩

/-- Claim C6: merging the nearest-neighbour query results deduplicates by id
keeping the first-encountered instance: the first match with a given (truthy)
id survives unchanged (`find?` is preserved), kept ids are pairwise distinct,
and a score-1 entry followed by a lower-score duplicate keeps only the
first. -/
theorem dedup_keeps_first_seen :
    (∀ (ms : List VMatch) (i : String), i ≠ "" →
      (dedupById ms).find? (fun m => m.id == i) = ms.find? (fun m => m.id == i)) ∧
    (∀ ms : List VMatch, ((dedupById ms).map (fun m => m.id)).Nodup) ∧
    dedupById
        [⟨"x", some 1, some "artist", some "pop", some "A"⟩,
         ⟨"x", some (1/2), some "artist", some "pop", some "A"⟩] =
      [⟨"x", some 1, some "artist", some "pop", some "A"⟩] := by
  refine ⟨?_, ?_, rfl⟩
  · intro ms i hi
    exact dedupByIdFrom_find? i hi ms [] (by simp)
  · intro ms
    exact (dedupByIdFrom_nodup ms []).1

theorem dedup_keeps_first_seen_witness :
    (dedupById [⟨"y", some 1, none, none, none⟩]).find? (fun m => m.id == "y") =
      List.find? (fun m => m.id == "y") [⟨"y", some 1, none, none, none⟩] :=
  dedup_keeps_first_seen.1 [⟨"y", some 1, none, none, none⟩] "y" (by decide)

/-- Claim C7 (code bug): the resolver does keep only type-"artist" matches
whose lowercased-trimmed genre equals the lowercased-trimmed target genre
(and whose artist metadata field is truthy — part of being a first-class
entity record), returning the first `topK` survivors of the descending
stable sort when `topK ≥ 1` and at least one match survives.  But the claim's
zero-survivor clause is wrong about the code: the post-loop logging block
references the loop-scoped `targetGenreLower` (line 173), so every
zero-survivor call throws a `ReferenceError` instead of returning `[]`; and
with `topK = 0` the post-push bound check returns the first survivor instead
of zero survivors. -/
theorem resolve_zero_survivors_throws :
    (∀ (pool : List VMatch) (g : String) (k : ℕ), 1 ≤ k →
      (sortDescByScore (dedupById pool)).filter (matchesTarget g) ≠ [] →
      processMatches pool g k =
        .ok ((((sortDescByScore (dedupById pool)).filter (matchesTarget g)).map
          (toArtistResult g)).take k)) ∧
    (∀ (pool : List VMatch) (g : String) (k : ℕ),
      (sortDescByScore (dedupById pool)).filter (matchesTarget g) = [] →
        processMatches pool g k = .error .referenceErrorTargetGenreLower) ∧
    processMatches [] "pop" 3 = .error .referenceErrorTargetGenreLower ∧
    processMatches [⟨"id1", some 1, some "artist", some "pop", some "X"⟩] "pop" 0 =
      .ok [⟨"X", "pop", 1⟩] ∧
    matchesTarget "pop" ⟨"i", some 1, some "artist", some " Pop ", some "X"⟩ = true ∧
    matchesTarget "pop" ⟨"j", some 1, some "centroid", some "pop", some "X"⟩ = false := by
  refine ⟨?_, ?_, rfl, rfl, by decide, by decide⟩
  · intro pool g k hk hne
    simp only [processMatches]
    rw [resultsLoop_eq]
    simp only [List.length_nil, Nat.sub_zero, List.reverse_nil, List.nil_append]
    rw [show max k 1 = k from by omega, if_neg]
    rw [List.length_take, List.length_map]
    have hpos : 0 < ((sortDescByScore (dedupById pool)).filter (matchesTarget g)).length :=
      List.length_pos.mpr hne
    omega
  · intro pool g k h
    simp only [processMatches]
    rw [resultsLoop_eq, h]
    simp

theorem resolve_zero_survivors_throws_witness :
    processMatches [⟨"id2", some 1, some "artist", some "rock", some "Y"⟩] "rock" 1 =
      .ok ((((sortDescByScore
          (dedupById [⟨"id2", some 1, some "artist", some "rock", some "Y"⟩])).filter
        (matchesTarget "rock")).map (toArtistResult "rock")).take 1) ∧
    processMatches [] "jazz" 2 = .error .referenceErrorTargetGenreLower :=
  ⟨resolve_zero_survivors_throws.1 [⟨"id2", some 1, some "artist", some "rock", some "Y"⟩]
      "rock" 1 (by decide) (by decide),
   resolve_zero_survivors_throws.2.1 [] "jazz" 2 rfl⟩

/-- Claim C8: the resolver fails with the error naming the missing identifier
when the source artist vector or either genre centroid is absent (no partial
result), fails with the dimension-mismatch error when the three vectors
disagree in length, and otherwise the analogy vector is the component-wise
`v − c_src + c_tgt`, so `[1,0] − [0,0] + [2,0] = [3,0]`. -/
theorem resolver_error_paths :
    (∀ (sa sg tg : String) (aS aT : Option (List ℚ)) (qm : List VMatch) (k : ℕ),
      findEquivalentArtists sa sg tg none aS aT qm k = .error (.artistNotFound sa sg)) ∧
    (∀ (sa sg tg : String) (v : List ℚ) (aT : Option (List ℚ)) (qm : List VMatch) (k : ℕ),
      findEquivalentArtists sa sg tg (some v) none aT qm k = .error (.sourceAvgNotFound sg)) ∧
    (∀ (sa sg tg : String) (v s : List ℚ) (qm : List VMatch) (k : ℕ),
      findEquivalentArtists sa sg tg (some v) (some s) none qm k =
        .error (.targetAvgNotFound tg)) ∧
    (∀ (sa sg tg : String) (v s t : List ℚ) (qm : List VMatch) (k : ℕ),
      s.length ≠ v.length ∨ t.length ≠ v.length →
      findEquivalentArtists sa sg tg (some v) (some s) (some t) qm k =
        .error .dimensionMismatch) ∧
    vectorArithmetic [1, 0] [0, 0] [2, 0] = .ok [3, 0] := by
  refine ⟨fun _ _ _ _ _ _ _ => rfl, fun _ _ _ _ _ _ _ => rfl, fun _ _ _ _ _ _ _ => rfl,
    ?_, ?_⟩
  · intro sa sg tg v s t qm k h
    simp only [findEquivalentArtists, vectorArithmetic, if_pos h]
  · rw [vectorArithmetic, if_neg (by norm_num)]
    norm_num [List.zipWith3]

theorem resolver_error_paths_witness :
    findEquivalentArtists "a" "g1" "g2" (some [1, 0]) (some [0]) (some [2, 0]) [] 3 =
      .error .dimensionMismatch :=
  resolver_error_paths.2.2.2.1 "a" "g1" "g2" [1, 0] [0] [2, 0] [] 3 (Or.inl (by decide))

/-- Claim C1: on the end-to-end scenario records (with embedding similarity
0.8), `compareArtists` produces theme score 1/3, attribute score 1, style
score 1/2, and overall score `0.5·0.8 + 0.2·(1/3) + 0.15·1 + 0.15·0.5`
(= 83/120 = 0.691666…), for every artist/genre naming and every
text-generation outcome. -/
theorem compareArtists_scenario :
    ∀ (sa sg ta tg : String) (o : Except Unit String),
      ((compareArtists sa sg
          { themes := ["love", "loss"]
            musicalCharacteristics :=
              { tempo := none, key := none, mood := none, instrumentation := none,
                energy := some "high" }
            lyricalStyle :=
              { complexity := "complex", emotionalTone := "bittersweet longing",
                narrativeStyle := "poetic", commonTopics := some ["breakup"] } }
          ta tg
          { themes := ["loss", "hope"]
            musicalCharacteristics :=
              { tempo := none, key := none, mood := none, instrumentation := none,
                energy := some "high" }
            lyricalStyle :=
              { complexity := "moderate", emotionalTone := "hopeful longing",
                narrativeStyle := "narrative", commonTopics := some ["breakup"] } }
          0.8 o).technicalBreakdown =
        { themeSimilarity := 1/3
          musicalSimilarity := 1
          lyricalSimilarity := 1/2
          overallSimilarity := 0.5 * 0.8 + 0.2 * (1/3) + 0.15 * 1 + 0.15 * 0.5 }) ∧
      ((0.5 : ℚ) * 0.8 + 0.2 * (1/3) + 0.15 * 1 + 0.15 * 0.5 = 83/120) := by
  intro sa sg ta tg o
  have ht : calculateThemeSimilarity ["love", "loss"] ["loss", "hope"] = 1/3 := by
    rw [calculateThemeSimilarity_eq_jaccard _ _ (by decide) (by decide), jaccard,
      show (normSet ["love", "loss"] ∩ normSet ["loss", "hope"]).card = 1 from by decide,
      show (normSet ["love", "loss"] ∪ normSet ["loss", "hope"]).card = 3 from by decide]
    norm_num
  have hn : jsTruthy none = false := rfl
  have hj : jsTruthy (some "high") = true := by decide
  have hm : calculateMusicalSimilarity
      ⟨none, none, none, none, some "high"⟩ ⟨none, none, none, none, some "high"⟩ = 1 := by
    norm_num [calculateMusicalSimilarity, compareStep, instStep, hn, hj]
  have htop : calculateThemeSimilarity ["breakup"] ["breakup"] = 1 := by
    rw [calculateThemeSimilarity_eq_jaccard _ _ (by decide) (by decide), jaccard,
      show (normSet ["breakup"] ∩ normSet ["breakup"]).card = 1 from by decide,
      show (normSet ["breakup"] ∪ normSet ["breakup"]).card = 1 from by decide]
    norm_num
  have hcx : ("complex" : String) = "" ↔ False := iff_false_intro (by decide)
  have hmo : ("moderate" : String) = "" ↔ False := iff_false_intro (by decide)
  have hcm : ("complex" : String) = "moderate" ↔ False := iff_false_intro (by decide)
  have hbt : ("bittersweet longing" : String) = "" ↔ False := iff_false_intro (by decide)
  have hht : ("hopeful longing" : String) = "" ↔ False := iff_false_intro (by decide)
  have hl : calculateLyricalSimilarity
      ⟨"complex", "bittersweet longing", "poetic", some ["breakup"]⟩
      ⟨"moderate", "hopeful longing", "narrative", some ["breakup"]⟩ = 1/2 := by
    simp only [calculateLyricalSimilarity]
    rw [show (Finset.filter
        (fun w => w ∈ (jsSplitWs (jsToLower "hopeful longing")).toFinset ∧ 3 < w.length)
        (jsSplitWs (jsToLower "bittersweet longing")).toFinset).card = 1 from by decide,
      show (jsSplitWs (jsToLower "bittersweet longing")).toFinset.card = 2 from by decide,
      show (jsSplitWs (jsToLower "hopeful longing")).toFinset.card = 2 from by decide, htop]
    norm_num [hcx, hmo, hcm, hbt, hht]
  refine ⟨?_, by norm_num⟩
  simp only [compareArtists, TechnicalBreakdown.mk.injEq]
  refine ⟨ht, hm, hl, ?_⟩
  rw [ht, hm, hl, overallSimilarity]
  norm_num

/-- Counterexample to claim C2 as stated: with shared themes `["love"]`, a
port failure yields the templated shared-characteristics sentence, while an
empty/whitespace-only port response yields a different, fixed generic
sentence — the two fallbacks are not identical. -/
theorem explanation_fallback_ctrex :
    generateUserFriendlyExplanation "A" "rock" "B" "pop" ["love"] [] (.ok " ") =
      "These artists share similar musical and lyrical characteristics that make them equivalent across genres." ∧
    generateUserFriendlyExplanation "A" "rock" "B" "pop" ["love"] [] (.error ()) =
      "A and B are equivalent because they both explore themes like love." ∧
    generateUserFriendlyExplanation "A" "rock" "B" "pop" ["love"] [] (.ok " ") ≠
      generateUserFriendlyExplanation "A" "rock" "B" "pop" ["love"] [] (.error ()) := by
  refine ⟨by decide, by decide, by decide⟩

/-- Claim C2 (amended): the composer's result is never empty; an
empty/whitespace-only port response yields the fixed generic sentence, while
a port failure yields the templated sentence naming up to 3 shared themes and
the first shared musical characteristic when either list is non-empty, and
otherwise a generic equivalence sentence naming both artists and both
genres. -/
theorem explanation_fallback_amended :
    (∀ (sa sg ta tg : String) (th mu : List String) (o : Except Unit String),
      generateUserFriendlyExplanation sa sg ta tg th mu o ≠ "") ∧
    (∀ (sa sg ta tg : String) (th mu : List String) (e : String), jsTrim e = "" →
      generateUserFriendlyExplanation sa sg ta tg th mu (.ok e) =
        "These artists share similar musical and lyrical characteristics that make them equivalent across genres.") ∧
    (∀ (sa sg ta tg : String) (th mu : List String), th ≠ [] ∨ mu ≠ [] →
      generateUserFriendlyExplanation sa sg ta tg th mu (.error ()) =
        sa ++ " and " ++ ta ++ " are equivalent because they " ++
          String.intercalate " and "
            ((if 0 < th.length then
                ["both explore themes like " ++ String.intercalate ", " (th.take 3)]
              else []) ++
             (if 0 < mu.length then ["share " ++ mu.headD ""] else [])) ++ ".") ∧
    (∀ sa sg ta tg : String,
      generateUserFriendlyExplanation sa sg ta tg [] [] (.error ()) =
        sa ++ " and " ++ ta ++
          " share similar artistic approaches that make them equivalent across the " ++
          sg ++ " and " ++ tg ++ " genres.") := by
  refine ⟨?_, ?_, ?_, ?_⟩
  · intro sa sg ta tg th mu o
    cases o with
    | ok e =>
      simp only [generateUserFriendlyExplanation]
      by_cases h : jsTrim e = ""
      · rw [if_neg (not_not_intro h)]
        decide
      · rw [if_pos h]
        exact h
    | error u =>
      simp only [generateUserFriendlyExplanation]
      have hdot : ("." : String) = "" ↔ False := iff_false_intro (by decide)
      have hgen : (" genres." : String) = "" ↔ False := iff_false_intro (by decide)
      split <;> split <;> simp [append_eq_empty_iff, hdot, hgen]
  · intro sa sg ta tg th mu e h
    simp only [generateUserFriendlyExplanation]
    rw [if_neg (not_not_intro h)]
  · intro sa sg ta tg th mu h
    simp only [generateUserFriendlyExplanation]
    rw [if_pos]
    rcases h with h | h
    · have hp : 0 < th.length := List.length_pos.mpr h
      rw [if_pos hp]
      simp
    · have hp : 0 < mu.length := List.length_pos.mpr h
      rw [if_pos hp]
      simp [List.length_append]
  · intro sa sg ta tg
    simp [generateUserFriendlyExplanation]

theorem explanation_fallback_amended_witness :
    generateUserFriendlyExplanation "A" "r" "B" "p" [] [] (.ok "  ") =
      "These artists share similar musical and lyrical characteristics that make them equivalent across genres." ∧
    generateUserFriendlyExplanation "A" "r" "B" "p" ["love", "loss"] ["Energy: high"]
        (.error ()) =
      "A and B are equivalent because they both explore themes like love, loss and share Energy: high." := by
  constructor
  · exact explanation_fallback_amended.2.1 "A" "r" "B" "p" [] [] "  " (by decide)
  · rw [explanation_fallback_amended.2.2.1 "A" "r" "B" "p" ["love", "loss"] ["Energy: high"]
      (Or.inl (by decide))]
    decide
